import Mathlib

/-!
# Verification of the voxel GPU-meshing pipeline (hector-crean/voxel)

Shallow embedding of the repository's data model and operations:

* `src/lib.rs` — `CHUNK_SZ` constants, plugin wiring;
* `src/data/voxel.rs` — `Voxel`;
* `src/data/voxel_material.rs` — `VoxelMaterial`, `VoxelMaterialComponents`,
  `VoxelMaterial::generate_random`;
* `src/data/gpu_voxel_material.rs` — `GpuVoxelMaterial::{new, initialize, extract}`;
* `src/data/gpu_voxel_material_bind_group.rs` —
  `GpuVoxelMaterialBindGroups::{new, initialise, prepare}`;
* `src/render/voxel_mesh_compute_pipeline.rs` — `VoxelMeshComputeNode::run`;
* `src/channels.rs` — `RenderWorldSender::map_and_read_buffer`,
  `MainWorldReceiver::receive`.

Machine integers (`u32`, `u64`, `usize`) are modelled as `Nat`; the sizes in
question stay far below their bounds except where an explicit overflow check
(`checked_mul` on `u64`) appears, which is modelled with an explicit `2 ^ 64`
comparison.  `f32` densities are modelled as `Rat`: every density the code
computes (`0`, `1`, or the integer `height`) is exactly representable in `f32`,
so rational arithmetic agrees with the float arithmetic on these values.
Fatal conditions (panics via `expect`, the `NonZeroU64::new_unchecked`
precondition, `checked_mul` overflow) are modelled by `Option`, `none` meaning
the process aborts.
-/

/-! ## Constants from `src/lib.rs` -/

/-- `const CHUNK_SZ: usize = 32;` (`src/lib.rs:34`). -/
def CHUNK_SZ : Nat := 32

/-- `const CHUNK_SZ_2: usize = CHUNK_SZ * CHUNK_SZ;` (`src/lib.rs:35`). -/
def CHUNK_SZ_2 : Nat := CHUNK_SZ * CHUNK_SZ

/-- `const CHUNK_SZ_3: usize = CHUNK_SZ * CHUNK_SZ * CHUNK_SZ;` (`src/lib.rs:36`). -/
def CHUNK_SZ_3 : Nat := CHUNK_SZ * CHUNK_SZ * CHUNK_SZ

/-! ## `src/data/voxel.rs` -/

/-- `struct Voxel { flags: u32, density: f32 }`. -/
structure Voxel where
  flags : Nat
  density : Rat
deriving DecidableEq

/-- `impl Default for Voxel`: `flags = 0`, `density = 1.0`. -/
def Voxel.default : Voxel := { flags := 0, density := 1 }

/-- `Voxel::new(flags, density)`. -/
def Voxel.new (flags : Nat) (density : Rat) : Voxel := { flags, density }

/-! ## `src/data/voxel_material.rs` -/

/-- `struct VoxelMaterial { voxels: Vec<Voxel>, chunk_size: u32 }`. -/
structure VoxelMaterial where
  voxels : List Voxel
  chunk_size : Nat
deriving DecidableEq

/-- Marker component `Volumetric` (`src/bundles/volumetric_bundle.rs`). -/
inductive Volumetric where
  | mk
deriving DecidableEq

/-- `struct VolumetricBundle { volumetric: Volumetric, material: VoxelMaterial }`. -/
structure VolumetricBundle where
  volumetric : Volumetric
  material : VoxelMaterial
deriving DecidableEq

/-- `VolumetricBundle::new(voxel_material)`. -/
def VolumetricBundle.new (voxel_material : VoxelMaterial) : VolumetricBundle :=
  { volumetric := Volumetric.mk, material := voxel_material }

/-- `VoxelMaterial::generate_random` (`src/data/voxel_material.rs:14-41`):
fills a `CHUNK_SZ × CHUNK_SZ × CHUNK_SZ` grid (index `x + y*CHUNK_SZ +
z*CHUNK_SZ_2`) with `Voxel::new(0, density)` where `height = 4.0 + 8.0 - y`
and `density = 1` if `height > 1`, `height` if `height > 0`, else `0`; then
spawns `VolumetricBundle::new(VoxelMaterial { chunk_size: CHUNK_SZ_3 as u32,
voxels })`.  Modelled as returning the spawned bundle. -/
def VoxelMaterial.generate_random : VolumetricBundle :=
  let voxels0 : List Voxel := List.replicate CHUNK_SZ_3 Voxel.default
  let voxels : List Voxel :=
    (List.range CHUNK_SZ).foldl (fun vz (z : Nat) =>
      (List.range CHUNK_SZ).foldl (fun vy (y : Nat) =>
        (List.range CHUNK_SZ).foldl (fun vx (x : Nat) =>
          let height : Rat := 4 + 8 - (y : Rat)
          let density : Rat := if height > 1 then 1 else if height > 0 then height else 0
          vx.set (x + y * CHUNK_SZ + z * CHUNK_SZ_2) (Voxel.new 0 density)) vy) vz) voxels0
  VolumetricBundle.new { chunk_size := CHUNK_SZ_3, voxels := voxels }

/-- `VoxelMaterialComponents<C>(pub HashMap<Entity, C>)`
(`src/data/voxel_material.rs:44-65`); `Entity` is modelled as `Nat`. -/
def VoxelMaterialComponents (α : Type) : Type := Nat → Option α

/-- `VoxelMaterialComponents::get`. -/
def VoxelMaterialComponents.get {α : Type} (m : VoxelMaterialComponents α) (k : Nat) :
    Option α := m k

/-- `VoxelMaterialComponents::insert` (`HashMap::insert` replaces). -/
def VoxelMaterialComponents.insert {α : Type} (m : VoxelMaterialComponents α) (k : Nat)
    (v : α) : VoxelMaterialComponents α :=
  fun k2 => if k2 = k then some v else m k2

/-- `FromWorld for VoxelMaterialComponents<C>`: the empty map. -/
def VoxelMaterialComponents.empty {α : Type} : VoxelMaterialComponents α := fun _ => none

/-! ## bevy `BufferVec<T>` (the abstraction `gpu_voxel_material.rs` builds on)

bevy's `BufferVec<T>` keeps a CPU-side `Vec<T>` of `values`, a `capacity` in
elements, and an optional device `Buffer` handle:

* `new(usage)` — empty values, capacity 0, no buffer;
* `reserve(cap, device)` — if `cap > capacity`, sets `capacity = cap` and
  creates a fresh device buffer of `item_size * cap` bytes;
* `push(value)` — appends to the CPU `values` only;
* `write_buffer(device, queue)` — returns immediately when `values` is empty,
  otherwise `reserve(values.len())` and enqueues one queue write of the values;
* `binding()` — `some` exactly when a device buffer exists.

A device buffer handle is modelled by its byte size.  The ghost field
`write_buffer_calls` counts `write_buffer` invocations; it instruments the
embedding so that "`write_buffer` is never called on this buffer" is statable,
and changes no other behaviour. -/

/-- wgpu `BufferUsages` flags appearing in the repository. -/
inductive BufferUsage where
  | storage
  | copy_src
  | copy_dst
  | map_read
deriving DecidableEq

/-- bevy `BufferVec<T>`; `item_size` is `size_of::<T>()`. -/
structure BufferVec (α : Type) where
  values : List α
  item_size : Nat
  capacity : Nat
  buffer : Option Nat
  usage : List BufferUsage
  write_buffer_calls : Nat
deriving DecidableEq

/-- `BufferVec::<T>::new(usage)`. -/
def BufferVec.new (α : Type) (item_size : Nat) (usage : List BufferUsage) : BufferVec α :=
  { values := [], item_size := item_size, capacity := 0, buffer := none,
    usage := usage, write_buffer_calls := 0 }

/-- `BufferVec::reserve(capacity, device)`. -/
def BufferVec.reserve {α : Type} (b : BufferVec α) (cap : Nat) : BufferVec α :=
  if cap > b.capacity then
    { b with capacity := cap, buffer := some (b.item_size * cap) }
  else b

/-- `BufferVec::push(value)`. -/
def BufferVec.push {α : Type} (b : BufferVec α) (v : α) : BufferVec α :=
  { b with values := b.values ++ [v] }

/-- A `for v in vs { buffer.push(v) }` loop. -/
def BufferVec.pushList {α : Type} (b : BufferVec α) (vs : List α) : BufferVec α :=
  vs.foldl BufferVec.push b

/-- `BufferVec::write_buffer(device, queue)`; the ghost counter records the
invocation even when the empty-values early return fires. -/
def BufferVec.write_buffer {α : Type} (b : BufferVec α) : BufferVec α :=
  let b := { b with write_buffer_calls := b.write_buffer_calls + 1 }
  if b.values.isEmpty then b else b.reserve b.values.length

/-- `BufferVec::binding()`: `some` exactly when a device buffer exists. -/
def BufferVec.binding {α : Type} (b : BufferVec α) : Option Nat := b.buffer

/-- wgpu `Buffer` created from a `BufferDescriptor` (the staging buffer). -/
structure Buffer where
  label : Option String
  size : Nat
  usage : List BufferUsage
  mapped_at_creation : Bool
deriving DecidableEq

/-! ## Lookup tables and shader-side record sizes -/

/-- Modelled from the spec: the repository imports `edge_table::EDGE_TABLE`, but
`src/data/edge_table.rs` is not among the provided sources.  Spec §3/§6 fix it
as a constant 256-entry `u32` table with opaque values; only its length is
observable to any claim, so the values are taken as `0`. -/
def EDGE_TABLE : List Nat := List.replicate 256 0

/-- Modelled from the spec: the repository imports `triangle_table::TRI_TABLE`,
but `src/data/triangle_table.rs` is not among the provided sources.  Spec §3/§6
fix it as a constant 256 × 16×`i32` table with opaque values. -/
def TRI_TABLE : List (List Int) := List.replicate 256 (List.replicate 16 0)

/-- `std::mem::size_of::<Vec3>()` for glam's `Vec3` (three `f32`): 12 bytes. -/
def sizeOfVec3 : Nat := 12

/-- `VertexBuffer::min_size()` (`src/render/voxel_mesh_compute_pipeline.rs:42-46`):
`VertexBuffer` is a `ShaderType` struct whose single field is a runtime-sized
array of `vec3<f32>`.  Per the WGSL layout rules encase implements, an array of
`vec3<f32>` has stride `round_up(16, 12) = 16`, and the struct's minimum size is
one element, so `min_size() = 16` bytes. -/
def VertexBuffer.min_size : Nat := 16

/-! ## `src/data/gpu_voxel_material.rs` -/

/-- `struct GpuVoxelMaterial` (`src/data/gpu_voxel_material.rs:23-35`).
Element byte sizes: `Voxel` = 8, `u32` = 4, `[i32; 16]` = 64, `Vec4` = 16,
`Vec2` = 8. -/
structure GpuVoxelMaterial where
  voxels_buffer : BufferVec Voxel
  edge_table_buffer : BufferVec Nat
  tri_table_buffer : BufferVec (List Int)
  vertices_buffer : BufferVec (Rat × Rat × Rat × Rat)
  normals_buffer : BufferVec (Rat × Rat × Rat × Rat)
  uvs_buffer : BufferVec (Rat × Rat)
  indices_buffer : BufferVec Nat
  atomics_buffer : BufferVec Nat
  vertices_staging_buffer : Buffer
deriving DecidableEq

/-- The staging-buffer size computation in `GpuVoxelMaterial::new`
(`src/data/gpu_voxel_material.rs:76-82`):
`VertexBuffer::min_size().checked_mul(NonZeroU64::new_unchecked(chunk_size))`.
`NonZeroU64::new_unchecked(0)` violates its precondition (undefined
behaviour), modelled as a fatal failure; `checked_mul` yields `none` when the
`u64` product overflows, which leaves the `BufferDescriptor` without a valid
size — also fatal. -/
def checked_staging_size (chunk_size : Nat) : Option Nat :=
  if chunk_size = 0 then none
  else if VertexBuffer.min_size * chunk_size < 2 ^ 64 then
    some (VertexBuffer.min_size * chunk_size)
  else none

/-- `GpuVoxelMaterial::new(render_device, render_queue, voxel_material)`
(`src/data/gpu_voxel_material.rs:38-115`), buffer for buffer in source order:
voxels (reserve `chunk_size`, push all voxels, write), edge table (reserve 256,
push, write), tri table (reserve 256, push, write), vertices (reserve
`chunk_size`), the staging buffer, uvs (reserve `chunk_size * 4 * 6`), normals
(reserve `chunk_size * 4 * 6`), indices (reserve `chunk_size * 6 * 6`), atomics
(reserve 2). `none` models a process abort. -/
def GpuVoxelMaterial.new (voxel_material : VoxelMaterial) : Option GpuVoxelMaterial :=
  let voxels_buffer :=
    ((((BufferVec.new Voxel 8 [BufferUsage.storage, BufferUsage.copy_src]).reserve
        voxel_material.chunk_size).pushList voxel_material.voxels)).write_buffer
  let edge_table_buffer :=
    (((BufferVec.new Nat 4 [BufferUsage.storage, BufferUsage.copy_src]).reserve
        256).pushList EDGE_TABLE).write_buffer
  let tri_table_buffer :=
    (((BufferVec.new (List Int) 64 [BufferUsage.storage, BufferUsage.copy_src]).reserve
        256).pushList TRI_TABLE).write_buffer
  let vertices_buffer :=
    (BufferVec.new (Rat × Rat × Rat × Rat) 16
        [BufferUsage.storage, BufferUsage.copy_src, BufferUsage.copy_dst]).reserve
      voxel_material.chunk_size
  match checked_staging_size voxel_material.chunk_size with
  | none => none
  | some staging_size =>
    let vertices_staging_buffer : Buffer :=
      { label := some "vertices_staging_buffer", size := staging_size,
        usage := [BufferUsage.map_read, BufferUsage.copy_dst],
        mapped_at_creation := false }
    let uvs_buffer :=
      (BufferVec.new (Rat × Rat) 8
          [BufferUsage.storage, BufferUsage.copy_src, BufferUsage.copy_dst]).reserve
        (voxel_material.chunk_size * 4 * 6)
    let normals_buffer :=
      (BufferVec.new (Rat × Rat × Rat × Rat) 16
          [BufferUsage.storage, BufferUsage.copy_src, BufferUsage.copy_dst]).reserve
        (voxel_material.chunk_size * 4 * 6)
    let indices_buffer :=
      (BufferVec.new Nat 4
          [BufferUsage.storage, BufferUsage.copy_src, BufferUsage.copy_dst]).reserve
        (voxel_material.chunk_size * 6 * 6)
    let atomics_buffer :=
      (BufferVec.new Nat 4
          [BufferUsage.storage, BufferUsage.copy_src, BufferUsage.copy_dst]).reserve 2
    some { voxels_buffer, edge_table_buffer, tri_table_buffer, vertices_buffer,
           vertices_staging_buffer, normals_buffer, uvs_buffer, indices_buffer,
           atomics_buffer }

/-- The body the `initialize` and `extract` systems
(`src/data/gpu_voxel_material.rs:118-162`) both run per matched entity:
`GpuVoxelMaterial::new` followed by `vertices_buffer.write_buffer`. -/
def GpuVoxelMaterial.upload_step (voxel_material : VoxelMaterial) :
    Option GpuVoxelMaterial :=
  (GpuVoxelMaterial.new voxel_material).map fun g =>
    { g with vertices_buffer := g.vertices_buffer.write_buffer }

/-- `GpuVoxelMaterial::initialize` (`src/data/gpu_voxel_material.rs:118-140`):
for each `(Entity, &VoxelMaterial)` of the `Added<Volumetric>` query, build the
gpu material, write the vertices buffer, and insert it into the component map
(the `Volumetric` marker re-spawn is not observable to any claim). -/
def GpuVoxelMaterial.initialize (added : List (Nat × VoxelMaterial))
    (gpu_voxel_materials : VoxelMaterialComponents GpuVoxelMaterial) :
    Option (VoxelMaterialComponents GpuVoxelMaterial) :=
  added.foldlM (fun acc p =>
    (GpuVoxelMaterial.upload_step p.2).map fun g => acc.insert p.1 g)
    gpu_voxel_materials

/-- `GpuVoxelMaterial::extract` (`src/data/gpu_voxel_material.rs:143-162`):
identical per-entity processing over the `With<Volumetric>` query. -/
def GpuVoxelMaterial.extract (known : List (Nat × VoxelMaterial))
    (gpu_voxel_materials : VoxelMaterialComponents GpuVoxelMaterial) :
    Option (VoxelMaterialComponents GpuVoxelMaterial) :=
  known.foldlM (fun acc p =>
    (GpuVoxelMaterial.upload_step p.2).map fun g => acc.insert p.1 g)
    gpu_voxel_materials

/-! ## `src/data/gpu_voxel_material_bind_group.rs` -/

/-- One wgpu bind group: a list of `(slot index, bound buffer handle)` pairs. -/
structure BindGroup where
  entries : List (Nat × Nat)
deriving DecidableEq

/-- `struct GpuVoxelMaterialBindGroups(pub [BindGroup; 1])`. -/
structure GpuVoxelMaterialBindGroups where
  groups : List BindGroup
deriving DecidableEq

/-- `GpuVoxelMaterialBindGroups::new(render_device, voxel_pipeline, material)`
(`src/data/gpu_voxel_material_bind_group.rs:31-102`): builds one bind group
with indices 0=edge table, 1=tri table, 2=voxels, 3=atomics, 4=vertices,
5=normals, 6=indices, 7=uvs; each `binding()` goes through `.expect(...)`, so a
missing device buffer aborts (`none`). -/
def GpuVoxelMaterialBindGroups.new (g : GpuVoxelMaterial) :
    Option GpuVoxelMaterialBindGroups := do
  let e ← g.edge_table_buffer.binding
  let t ← g.tri_table_buffer.binding
  let v ← g.voxels_buffer.binding
  let a ← g.atomics_buffer.binding
  let ve ← g.vertices_buffer.binding
  let n ← g.normals_buffer.binding
  let i ← g.indices_buffer.binding
  let u ← g.uvs_buffer.binding
  pure { groups := [{ entries :=
    [(0, e), (1, t), (2, v), (3, a), (4, ve), (5, n), (6, i), (7, u)] }] }

/-- All eight buffers referenced by `GpuVoxelMaterialBindGroups::new` have a
device buffer handle. -/
def GpuVoxelMaterial.uploaded (g : GpuVoxelMaterial) : Bool :=
  g.edge_table_buffer.binding.isSome && g.tri_table_buffer.binding.isSome &&
  g.voxels_buffer.binding.isSome && g.atomics_buffer.binding.isSome &&
  g.vertices_buffer.binding.isSome && g.normals_buffer.binding.isSome &&
  g.indices_buffer.binding.isSome && g.uvs_buffer.binding.isSome

/-- The per-entity step of `initialise` and `prepare`
(`src/data/gpu_voxel_material_bind_group.rs:113-123` and `134-144`): if the
entity has a `GpuVoxelMaterial`, build its bind groups (fatal on a missing
buffer) and insert them; otherwise leave the map unchanged. -/
def GpuVoxelMaterialBindGroups.bindStep
    (gpu_voxel_materials : VoxelMaterialComponents GpuVoxelMaterial)
    (acc : VoxelMaterialComponents GpuVoxelMaterialBindGroups) (entity : Nat) :
    Option (VoxelMaterialComponents GpuVoxelMaterialBindGroups) :=
  match gpu_voxel_materials.get entity with
  | some g => (GpuVoxelMaterialBindGroups.new g).map fun bg => acc.insert entity bg
  | none => some acc

/-- `GpuVoxelMaterialBindGroups::initialise`
(`src/data/gpu_voxel_material_bind_group.rs:104-124`): runs `bindStep` for each
entity of the `Added<Volumetric>` query. -/
def GpuVoxelMaterialBindGroups.initialise (added : List Nat)
    (gpu_voxel_materials : VoxelMaterialComponents GpuVoxelMaterial)
    (voxel_material_bind_groups : VoxelMaterialComponents GpuVoxelMaterialBindGroups) :
    Option (VoxelMaterialComponents GpuVoxelMaterialBindGroups) :=
  added.foldlM (GpuVoxelMaterialBindGroups.bindStep gpu_voxel_materials)
    voxel_material_bind_groups

/-- `GpuVoxelMaterialBindGroups::prepare`
(`src/data/gpu_voxel_material_bind_group.rs:125-145`): runs `bindStep` for each
entity of the `With<Volumetric>` query (every currently-known volume), every
frame. -/
def GpuVoxelMaterialBindGroups.prepare (known : List Nat)
    (gpu_voxel_materials : VoxelMaterialComponents GpuVoxelMaterial)
    (voxel_material_bind_groups : VoxelMaterialComponents GpuVoxelMaterialBindGroups) :
    Option (VoxelMaterialComponents GpuVoxelMaterialBindGroups) :=
  known.foldlM (GpuVoxelMaterialBindGroups.bindStep gpu_voxel_materials)
    voxel_material_bind_groups

/-! ## `src/render/voxel_mesh_compute_pipeline.rs` — the compute node -/

/-- Observable actions of one `VoxelMeshComputeNode::run` round: a compute
dispatch (with its workgroup counts), a buffer-to-buffer copy into the
entity's staging buffer (with its byte count), or the `info!` log emitted when
an entity misses its gpu material or bind groups. -/
inductive RunEvent where
  | dispatch (entity : Nat) (x y z : Nat)
  | copy (entity : Nat) (bytes : Nat)
  | logMissing (entity : Nat)
deriving DecidableEq

/-- One iteration of the loop in `VoxelMeshComputeNode::run`
(`src/render/voxel_mesh_compute_pipeline.rs:186-221`): with both the gpu
material and the bind groups present, open a pass, set the bind groups and
pipeline, `dispatch_workgroups(8, 8, 8)`, then
`copy_buffer_to_buffer(vertices_buffer, 0, vertices_staging_buffer, 0,
CHUNK_SZ * size_of::<Vec3>())` — the source buffer is obtained through
`.expect(...)`, so a missing handle aborts; otherwise log and move on. -/
def VoxelMeshComputeNode.runStep (mats : Nat → Option GpuVoxelMaterial)
    (bgs : Nat → Option GpuVoxelMaterialBindGroups) (evs : List RunEvent)
    (entity : Nat) : Option (List RunEvent) :=
  match mats entity, bgs entity with
  | some g, some _bg =>
    match g.vertices_buffer.buffer with
    | some _ =>
      some (evs ++ [RunEvent.dispatch entity 8 8 8,
                    RunEvent.copy entity (CHUNK_SZ * sizeOfVec3)])
    | none => none
  | _, _ => some (evs ++ [RunEvent.logMissing entity])

/-- `VoxelMeshComputeNode::run`
(`src/render/voxel_mesh_compute_pipeline.rs:167-224`): if the pipeline cache
has no compiled pipeline yet, return `Ok(())` at once; otherwise process every
entity of the `With<Volumetric>` query.  The compiled pipeline is modelled as
`Option Unit` (present or not), the `Ok` result as `some` of the emitted
events, and a panic as `none`. -/
def VoxelMeshComputeNode.run (pipeline : Option Unit) (entities : List Nat)
    (mats : Nat → Option GpuVoxelMaterial)
    (bgs : Nat → Option GpuVoxelMaterialBindGroups) : Option (List RunEvent) :=
  match pipeline with
  | none => some []
  | some _ => entities.foldlM (VoxelMeshComputeNode.runStep mats bgs) []

/-! ## `src/channels.rs` -/

/-- The bytes of one mapped staging buffer reinterpreted as native-endian
`u32` words, as in `buffer_view.chunks(size_of::<u32>()).map(u32::from_ne_bytes)`
(`src/channels.rs:57-61`); a trailing chunk shorter than 4 bytes makes the
`try_into` fail, which panics (`none`). -/
def bytesToWords : List Nat → Option (List Nat)
  | [] => some []
  | b0 :: b1 :: b2 :: b3 :: rest =>
    (bytesToWords rest).map fun ws =>
      (b0 + 256 * b1 + 65536 * b2 + 16777216 * b3) :: ws
  | _ => none

/-- `RenderWorldSender::map_and_read_buffer` (`src/channels.rs:37-69`): for
every gpu material, map its staging buffer (a backend-reported mapping error
panics — `mapOk` gives the backend's verdict), wait for all device work, read
the mapped bytes (`view` gives the device-visible contents) as `u32` words and
send them as one message; the channel is the message queue threaded through. -/
def RenderWorldSender.map_and_read_buffer (mapOk : Buffer → Bool)
    (view : Buffer → List Nat) (gpu_voxel_materials : List (Nat × GpuVoxelMaterial))
    (queue : List (List Nat)) : Option (List (List Nat)) :=
  gpu_voxel_materials.foldlM (fun q p =>
    if mapOk p.2.vertices_staging_buffer then
      (bytesToWords (view p.2.vertices_staging_buffer)).map fun ws => q ++ [ws]
    else none) queue

/-- `MainWorldReceiver::receive` (`src/channels.rs:26-31`): one non-blocking
`try_recv` on the FIFO channel — consumes the oldest message when one is
available, otherwise does nothing. -/
def MainWorldReceiver.receive (queue : List (List Nat)) :
    Option (List Nat) × List (List Nat) :=
  match queue with
  | [] => (none, [])
  | msg :: rest => (some msg, rest)

/-! ## Helper lemmas on `BufferVec` -/

theorem BufferVec.pushList_eq {α : Type} (vs : List α) :
    ∀ b : BufferVec α, b.pushList vs = { b with values := b.values ++ vs } := by
  induction vs with
  | nil => intro b; simp [BufferVec.pushList]
  | cons v vs ih =>
    intro b
    have h1 : b.pushList (v :: vs) = (b.push v).pushList vs := by
      simp [BufferVec.pushList]
    rw [h1, ih]
    simp [BufferVec.push]

theorem BufferVec.reserve_capacity {α : Type} (b : BufferVec α) (cap : Nat) :
    (b.reserve cap).capacity = max b.capacity cap := by
  unfold BufferVec.reserve
  split
  · next h => simp [Nat.max_eq_right (Nat.le_of_lt h)]
  · next h => simp [Nat.max_eq_left (Nat.le_of_not_lt h)]

theorem BufferVec.reserve_values {α : Type} (b : BufferVec α) (cap : Nat) :
    (b.reserve cap).values = b.values := by
  unfold BufferVec.reserve; split <;> rfl

theorem BufferVec.reserve_write_calls {α : Type} (b : BufferVec α) (cap : Nat) :
    (b.reserve cap).write_buffer_calls = b.write_buffer_calls := by
  unfold BufferVec.reserve; split <;> rfl

theorem BufferVec.write_buffer_capacity {α : Type} (b : BufferVec α) :
    b.write_buffer.capacity = max b.capacity b.values.length := by
  unfold BufferVec.write_buffer
  by_cases h : b.values.isEmpty
  · simp only [h, if_true]
    have : b.values.length = 0 := by simpa [List.isEmpty_iff_length_eq_zero] using h
    simp [this]
  · simp only [h, if_false]
    simp [BufferVec.reserve_capacity]

theorem BufferVec.write_buffer_values {α : Type} (b : BufferVec α) :
    b.write_buffer.values = b.values := by
  unfold BufferVec.write_buffer
  by_cases h : b.values.isEmpty
  · simp [h]
  · simp [h, BufferVec.reserve_values]

/-- The capacity of a buffer built by the `reserve → push voxels → write_buffer`
pattern of `GpuVoxelMaterial::new`. -/
theorem BufferVec.built_capacity {α : Type} (item : Nat) (usage : List BufferUsage)
    (cap : Nat) (vs : List α) :
    ((((BufferVec.new α item usage).reserve cap).pushList vs).write_buffer).capacity
      = max cap vs.length := by
  rw [BufferVec.pushList_eq, BufferVec.write_buffer_capacity]
  simp [BufferVec.reserve_capacity, BufferVec.reserve_values, BufferVec.new]

/-! ## Concrete sample inputs used by witnesses and counterexamples -/

/-- A small `VoxelMaterial` with `chunk_size = 2` and `2³ = 8` voxels. -/
def mW : VoxelMaterial := { voxels := List.replicate 8 Voxel.default, chunk_size := 2 }

/-- A fallback `GpuVoxelMaterial` (only used as `Option.getD` default). -/
def emptyGpu : GpuVoxelMaterial :=
  { voxels_buffer := BufferVec.new Voxel 8 [],
    edge_table_buffer := BufferVec.new Nat 4 [],
    tri_table_buffer := BufferVec.new (List Int) 64 [],
    vertices_buffer := BufferVec.new (Rat × Rat × Rat × Rat) 16 [],
    normals_buffer := BufferVec.new (Rat × Rat × Rat × Rat) 16 [],
    uvs_buffer := BufferVec.new (Rat × Rat) 8 [],
    indices_buffer := BufferVec.new Nat 4 [],
    atomics_buffer := BufferVec.new Nat 4 [],
    vertices_staging_buffer :=
      { label := none, size := 0, usage := [], mapped_at_creation := false } }

/-- The gpu resources `GpuVoxelMaterial::new` builds for `mW`. -/
def gW : GpuVoxelMaterial := (GpuVoxelMaterial.new mW).getD emptyGpu

/-- A `VoxelMaterial` with `chunk_size = 8` (the chunk size of spec §8's
readback-delivery property). -/
def mC2 : VoxelMaterial := { voxels := List.replicate 8 Voxel.default, chunk_size := 8 }

/-- The gpu resources `GpuVoxelMaterial::new` builds for `mC2`. -/
def gC2 : GpuVoxelMaterial := (GpuVoxelMaterial.new mC2).getD emptyGpu

/-- A resources map holding `gC2` for entity 0. -/
def matsC2 : Nat → Option GpuVoxelMaterial := fun e => if e = 0 then some gC2 else none

/-- A bind-group map holding `gC2`'s bind groups for entity 0. -/
def bgsC2 : Nat → Option GpuVoxelMaterialBindGroups :=
  fun e => if e = 0 then GpuVoxelMaterialBindGroups.new gC2 else none

/-! ## C1 — buffer capacities reserved by `GpuVoxelMaterial::new` -/

/-- C1 (counterexample): the claim says every per-cell output buffer is
reserved with `chunk_size × 24` elements; at `chunk_size = 2` the vertex
buffer is reserved with only `2` elements, not `48`. -/
theorem gpu_voxel_material_new_capacity_claim_counterexample :
    (GpuVoxelMaterial.new mW).map (fun g => g.vertices_buffer.capacity) = some 2
      ∧ (2 : Nat) ≠ 2 * 24 := by
  constructor
  · decide
  · decide

/-- C1 (amended): for every `VoxelMaterial` with `0 < chunk_size` (a `u32`),
`GpuVoxelMaterial::new` reserves — before any element is written — the voxels
buffer with `chunk_size` elements, the vertices buffer with `chunk_size`
elements, the normals and uv buffers with `chunk_size × 24` elements, the
indices buffer with `chunk_size × 36` elements, the atomics buffer with 2 and
the two lookup-table buffers with 256; writing the voxel data can exceed the
initially reserved `chunk_size` capacity of the voxels buffer (it does
whenever `voxels.len() > chunk_size`, e.g. for `chunk_size³` voxels with
`chunk_size ≥ 2`), in which case `write_buffer` grows the buffer, leaving
final capacity `max chunk_size voxels.len()`. -/
theorem gpu_voxel_material_new_reserved_capacities (m : VoxelMaterial)
    (h0 : 0 < m.chunk_size) (h32 : m.chunk_size < 2 ^ 32) :
    (GpuVoxelMaterial.new m).map (fun g =>
        (g.voxels_buffer.capacity, g.vertices_buffer.capacity,
         g.normals_buffer.capacity, g.uvs_buffer.capacity,
         g.indices_buffer.capacity, g.atomics_buffer.capacity,
         g.edge_table_buffer.capacity, g.tri_table_buffer.capacity))
      = some (max m.chunk_size m.voxels.length, m.chunk_size,
              24 * m.chunk_size, 24 * m.chunk_size, 36 * m.chunk_size, 2, 256, 256) := by
  have hs : checked_staging_size m.chunk_size
      = some (VertexBuffer.min_size * m.chunk_size) := by
    unfold checked_staging_size
    rw [if_neg (by omega), if_pos (by simp [VertexBuffer.min_size]; omega)]
  simp only [GpuVoxelMaterial.new, hs, Option.map_some]
  refine congrArg some ?_
  simp only [Prod.mk.injEq]
  refine ⟨?_, ?_, ?_, ?_, ?_, ?_, ?_, ?_⟩
  · rw [BufferVec.built_capacity]
  · rw [BufferVec.reserve_capacity]; simp [BufferVec.new]
  · rw [BufferVec.reserve_capacity]; simp [BufferVec.new]; omega
  · rw [BufferVec.reserve_capacity]; simp [BufferVec.new]; omega
  · rw [BufferVec.reserve_capacity]; simp [BufferVec.new]; omega
  · rw [BufferVec.reserve_capacity]; simp [BufferVec.new]
  · rw [BufferVec.built_capacity]
    simp only [EDGE_TABLE, List.length_replicate, max_self]
  · rw [BufferVec.built_capacity]
    simp only [TRI_TABLE, List.length_replicate, max_self]

/-- C1 (witness): the amended capacity statement at the concrete material
`mW` (`chunk_size = 2`, 8 voxels). -/
theorem gpu_voxel_material_new_reserved_capacities_witness :
    (0 : Nat) < mW.chunk_size ∧
    (GpuVoxelMaterial.new mW).map (fun g =>
        (g.voxels_buffer.capacity, g.vertices_buffer.capacity,
         g.normals_buffer.capacity, g.uvs_buffer.capacity,
         g.indices_buffer.capacity, g.atomics_buffer.capacity,
         g.edge_table_buffer.capacity, g.tri_table_buffer.capacity))
      = some (max mW.chunk_size mW.voxels.length, mW.chunk_size,
              24 * mW.chunk_size, 24 * mW.chunk_size, 36 * mW.chunk_size, 2, 256, 256) :=
  ⟨by decide, gpu_voxel_material_new_reserved_capacities mW (by decide) (by decide)⟩

/-! ## C6 — fatal preconditions of `GpuVoxelMaterial::new` -/

/-- C6: `GpuVoxelMaterial::new` fails fatally (modelled `none`, never a
recoverable value) whenever the material's `chunk_size` is zero (the
`NonZeroU64::new_unchecked` precondition) or the staging-buffer size
computation `min_size × chunk_size` overflows the `u64` buffer-size type
(`checked_mul`). -/
theorem gpu_voxel_material_new_fatal_on_zero_or_overflow (m : VoxelMaterial)
    (h : m.chunk_size = 0 ∨ 2 ^ 64 ≤ VertexBuffer.min_size * m.chunk_size) :
    GpuVoxelMaterial.new m = none := by
  have hs : checked_staging_size m.chunk_size = none := by
    unfold checked_staging_size
    rcases h with h | h
    · rw [if_pos h]
    · by_cases h0 : m.chunk_size = 0
      · rw [if_pos h0]
      · rw [if_neg h0, if_neg (by omega)]
  simp only [GpuVoxelMaterial.new, hs]

/-- C6 (witness): the zero-`chunk_size` case at a concrete material. -/
theorem gpu_voxel_material_new_fatal_on_zero_or_overflow_witness :
    ((⟨[], 0⟩ : VoxelMaterial).chunk_size = 0
        ∨ 2 ^ 64 ≤ VertexBuffer.min_size * (⟨[], 0⟩ : VoxelMaterial).chunk_size)
      ∧ GpuVoxelMaterial.new ⟨[], 0⟩ = none :=
  ⟨Or.inl rfl, gpu_voxel_material_new_fatal_on_zero_or_overflow ⟨[], 0⟩ (Or.inl rfl)⟩

/-! ## C10 — the atomics buffer is never host-written -/

/-- C10: in every `GpuVoxelMaterial` produced by `new` — and by the
per-entity processing of `initialize`/`extract` (`upload_step`), which only
adds a `write_buffer` on the vertices buffer — the atomics buffer has no
CPU-side values, capacity for exactly 2 `u32` counters (an 8-byte device
buffer), and `write_buffer` was never invoked on it; so no operation writes
counter values from the host, and resetting the counters can only come from
recreating the buffer. -/
theorem atomics_buffer_never_host_written (m : VoxelMaterial) :
    ((GpuVoxelMaterial.new m).map (fun g =>
        (g.atomics_buffer.values, g.atomics_buffer.capacity,
         g.atomics_buffer.buffer, g.atomics_buffer.write_buffer_calls))
      = (GpuVoxelMaterial.new m).map (fun _ => ([], 2, some 8, 0)))
    ∧ ((GpuVoxelMaterial.upload_step m).map (fun g =>
        (g.atomics_buffer.values, g.atomics_buffer.capacity,
         g.atomics_buffer.buffer, g.atomics_buffer.write_buffer_calls))
      = (GpuVoxelMaterial.upload_step m).map (fun _ => ([], 2, some 8, 0)))
    ∧ (GpuVoxelMaterial.new mW).map (fun g =>
        (g.atomics_buffer.values, g.atomics_buffer.capacity,
         g.atomics_buffer.buffer, g.atomics_buffer.write_buffer_calls))
      = some ([], 2, some 8, 0) := by
  have hnew : ∀ m2 : VoxelMaterial, (GpuVoxelMaterial.new m2).map (fun g =>
      (g.atomics_buffer.values, g.atomics_buffer.capacity,
       g.atomics_buffer.buffer, g.atomics_buffer.write_buffer_calls))
      = (GpuVoxelMaterial.new m2).map (fun _ => ([], 2, some 8, 0)) := by
    intro m2
    unfold GpuVoxelMaterial.new
    cases checked_staging_size m2.chunk_size with
    | none => simp
    | some sz =>
      simp only [Option.map_some]
      refine congrArg some ?_
      simp [BufferVec.reserve, BufferVec.new]
  refine ⟨hnew m, ?_, ?_⟩
  · unfold GpuVoxelMaterial.upload_step
    have h2 := hnew m
    cases hm : GpuVoxelMaterial.new m with
    | none => simp
    | some g =>
      rw [hm] at h2
      simp only [Option.map_some'] at h2 ⊢
      exact h2
  · rw [hnew mW]
    decide

/-! ## C4 — the content generator's voxel count -/

/-- A fold whose step preserves list length preserves list length. -/
theorem foldl_length_preserved {α β : Type} (g : List α → β → List α)
    (h : ∀ acc b, (g acc b).length = acc.length) :
    ∀ (ns : List β) (l : List α), (ns.foldl g l).length = l.length := by
  intro ns
  induction ns with
  | nil => intro l; rfl
  | cons n ns ih => intro l; rw [List.foldl_cons, ih, h]

/-- The voxel list `generate_random` builds has `CHUNK_SZ_3` entries: the
triple loop only overwrites entries of the initial
`List.replicate CHUNK_SZ_3 Voxel.default`. -/
theorem generate_random_length_aux :
    (VoxelMaterial.generate_random).material.voxels.length = CHUNK_SZ_3 := by
  unfold VoxelMaterial.generate_random
  simp only [VolumetricBundle.new]
  rw [foldl_length_preserved]
  · exact List.length_replicate ..
  · intro acc z
    rw [foldl_length_preserved]
    intro acc2 y
    rw [foldl_length_preserved]
    intro acc3 x
    exact List.length_set ..

/-- C4 (counterexample): the volume spawned at startup by
`VoxelMaterial::generate_random` violates `voxels.len() = chunk_size³`: it has
`CHUNK_SZ_3 = 32768` voxels while `chunk_size³ = 32768³`. -/
theorem generate_random_voxels_length_counterexample :
    (VoxelMaterial.generate_random).material.voxels.length
      ≠ (VoxelMaterial.generate_random).material.chunk_size ^ 3 := by
  rw [generate_random_length_aux]
  have h : (VoxelMaterial.generate_random).material.chunk_size = CHUNK_SZ_3 := rfl
  rw [h]
  norm_num [CHUNK_SZ_3, CHUNK_SZ_2, CHUNK_SZ]

/-- C4 (amended): the volume spawned at startup by `generate_random` has
`voxels.len() = chunk_size` — the generator sets `chunk_size` to the *total
voxel count* `CHUNK_SZ³ = 32768` (`chunk_size: CHUNK_SZ_3 as u32`), not to the
side length, so the length equals `chunk_size` itself rather than
`chunk_size³`. -/
theorem generate_random_voxels_length_eq_chunk_size :
    (VoxelMaterial.generate_random).material.voxels.length
      = (VoxelMaterial.generate_random).material.chunk_size := by
  rw [generate_random_length_aux]
  rfl

/-! ## C5 — bind-group completeness and fixed slot order -/

/-- C5: for a `GpuVoxelMaterial` whose buffers are all uploaded (every
`binding()` present), `GpuVoxelMaterialBindGroups::new` produces exactly one
bind group with exactly 8 slots, in the fixed order 0=edgeTable,
1=triangleTable, 2=voxels, 3=atomics, 4=vertices, 5=normals, 6=indices,
7=uvs, each bound to the corresponding buffer's (non-empty) handle; if any
referenced buffer has no device handle, the build fails fatally. -/
theorem bind_groups_new_slots (g : GpuVoxelMaterial) :
    (GpuVoxelMaterial.uploaded g = true →
      GpuVoxelMaterialBindGroups.new g = some { groups := [{ entries :=
        [(0, g.edge_table_buffer.binding.getD 0),
         (1, g.tri_table_buffer.binding.getD 0),
         (2, g.voxels_buffer.binding.getD 0),
         (3, g.atomics_buffer.binding.getD 0),
         (4, g.vertices_buffer.binding.getD 0),
         (5, g.normals_buffer.binding.getD 0),
         (6, g.indices_buffer.binding.getD 0),
         (7, g.uvs_buffer.binding.getD 0)] }] })
    ∧ (GpuVoxelMaterial.uploaded g = false →
      GpuVoxelMaterialBindGroups.new g = none) := by
  constructor
  · intro hup
    simp only [GpuVoxelMaterial.uploaded, Bool.and_eq_true, Option.isSome_iff_exists]
      at hup
    obtain ⟨⟨⟨⟨⟨⟨⟨⟨e, he⟩, ⟨t, ht⟩⟩, ⟨v, hv⟩⟩, ⟨a, ha⟩⟩, ⟨ve, hve⟩⟩, ⟨n, hn⟩⟩,
      ⟨i, hi⟩⟩, ⟨u, hu⟩⟩ := hup
    simp [GpuVoxelMaterialBindGroups.new, he, ht, hv, ha, hve, hn, hi, hu]
  · intro hup
    cases hne : GpuVoxelMaterialBindGroups.new g with
    | none => rfl
    | some bg =>
      exfalso
      revert hne
      unfold GpuVoxelMaterialBindGroups.new
      cases he : g.edge_table_buffer.binding with
      | none => intro hne; exact Option.noConfusion hne
      | some e =>
      cases ht : g.tri_table_buffer.binding with
      | none => intro hne; exact Option.noConfusion hne
      | some t =>
      cases hv : g.voxels_buffer.binding with
      | none => intro hne; exact Option.noConfusion hne
      | some v =>
      cases ha : g.atomics_buffer.binding with
      | none => intro hne; exact Option.noConfusion hne
      | some a =>
      cases hve : g.vertices_buffer.binding with
      | none => intro hne; exact Option.noConfusion hne
      | some ve =>
      cases hn : g.normals_buffer.binding with
      | none => intro hne; exact Option.noConfusion hne
      | some n =>
      cases hi : g.indices_buffer.binding with
      | none => intro hne; exact Option.noConfusion hne
      | some i =>
      cases hu : g.uvs_buffer.binding with
      | none => intro hne; exact Option.noConfusion hne
      | some u =>
        intro _
        rw [GpuVoxelMaterial.uploaded, he, ht, hv, ha, hve, hn, hi, hu] at hup
        simp at hup

set_option maxRecDepth 200000 in
/-- C5 (witness): the bind groups built for the concrete uploaded resources
`gW` (from `mW`): all 8 slots, fixed order, concrete handles. -/
theorem bind_groups_new_slots_witness :
    GpuVoxelMaterial.uploaded gW = true
      ∧ GpuVoxelMaterialBindGroups.new gW = some { groups := [{ entries :=
          [(0, gW.edge_table_buffer.binding.getD 0),
           (1, gW.tri_table_buffer.binding.getD 0),
           (2, gW.voxels_buffer.binding.getD 0),
           (3, gW.atomics_buffer.binding.getD 0),
           (4, gW.vertices_buffer.binding.getD 0),
           (5, gW.normals_buffer.binding.getD 0),
           (6, gW.indices_buffer.binding.getD 0),
           (7, gW.uvs_buffer.binding.getD 0)] }] } :=
  ⟨by decide, (bind_groups_new_slots gW).1 (by decide)⟩

/-! ## C9 — pipeline not yet compiled: silent skip -/

/-- C9 (counterexample): with the compiled pipeline absent and entity 0 fully
populated (resources and bind groups present), `run` returns success with an
empty event stream — in particular it does *not* log a skip for the affected
`VolumeIdentifier` 0. -/
theorem run_pipeline_not_ready_counterexample :
    VoxelMeshComputeNode.run none [0] matsC2 bgsC2 = some []
      ∧ RunEvent.logMissing 0 ∉ ([] : List RunEvent) :=
  ⟨rfl, by simp⟩

/-- C9 (amended): whenever the pipeline cache reports the compiled compute
program as not yet ready, `run` performs no dispatch (indeed emits no event
at all, in particular no per-volume log) and returns success immediately — a
silent scheduling deferral. -/
theorem run_pipeline_not_ready_silent (entities : List Nat)
    (mats : Nat → Option GpuVoxelMaterial)
    (bgs : Nat → Option GpuVoxelMaterialBindGroups) :
    VoxelMeshComputeNode.run none entities mats bgs = some [] := rfl

/-! ## Helper lemmas on `VoxelMeshComputeNode.run` -/

/-- The events one loop iteration of `run` appends when it does not abort. -/
def VoxelMeshComputeNode.stepEvents (mats : Nat → Option GpuVoxelMaterial)
    (bgs : Nat → Option GpuVoxelMaterialBindGroups) (entity : Nat) : List RunEvent :=
  match mats entity, bgs entity with
  | some _, some _ =>
    [RunEvent.dispatch entity 8 8 8, RunEvent.copy entity (CHUNK_SZ * sizeOfVec3)]
  | _, _ => [RunEvent.logMissing entity]

theorem VoxelMeshComputeNode.runStep_some {mats : Nat → Option GpuVoxelMaterial}
    {bgs : Nat → Option GpuVoxelMaterialBindGroups} {acc acc2 : List RunEvent}
    {a : Nat} (h : VoxelMeshComputeNode.runStep mats bgs acc a = some acc2) :
    acc2 = acc ++ [RunEvent.dispatch a 8 8 8,
                   RunEvent.copy a (CHUNK_SZ * sizeOfVec3)]
      ∨ acc2 = acc ++ [RunEvent.logMissing a] := by
  unfold VoxelMeshComputeNode.runStep at h
  split at h
  · split at h
    · exact Or.inl (Option.some_inj.mp h).symm
    · exact Option.noConfusion h
  · exact Or.inr (Option.some_inj.mp h).symm

theorem VoxelMeshComputeNode.runStep_some_of_present
    {mats : Nat → Option GpuVoxelMaterial}
    {bgs : Nat → Option GpuVoxelMaterialBindGroups} {acc acc2 : List RunEvent}
    {a : Nat} {g : GpuVoxelMaterial} {bg : GpuVoxelMaterialBindGroups}
    (hm : mats a = some g) (hb : bgs a = some bg)
    (h : VoxelMeshComputeNode.runStep mats bgs acc a = some acc2) :
    acc2 = acc ++ [RunEvent.dispatch a 8 8 8,
                   RunEvent.copy a (CHUNK_SZ * sizeOfVec3)] := by
  unfold VoxelMeshComputeNode.runStep at h
  split at h
  · split at h
    · exact (Option.some_inj.mp h).symm
    · exact Option.noConfusion h
  · next hcontra => exact (hcontra g bg hm hb).elim

theorem VoxelMeshComputeNode.foldlM_cons_some
    {mats : Nat → Option GpuVoxelMaterial}
    {bgs : Nat → Option GpuVoxelMaterialBindGroups} {acc evs : List RunEvent}
    {a : Nat} {es : List Nat}
    (h : (a :: es).foldlM (VoxelMeshComputeNode.runStep mats bgs) acc = some evs) :
    ∃ acc2, VoxelMeshComputeNode.runStep mats bgs acc a = some acc2
      ∧ es.foldlM (VoxelMeshComputeNode.runStep mats bgs) acc2 = some evs := by
  rw [List.foldlM_cons] at h
  cases hstep : VoxelMeshComputeNode.runStep mats bgs acc a with
  | none => rw [hstep] at h; exact Option.noConfusion h
  | some acc2 =>
    rw [hstep] at h
    exact ⟨acc2, rfl, h⟩

theorem VoxelMeshComputeNode.foldlM_mono
    {mats : Nat → Option GpuVoxelMaterial}
    {bgs : Nat → Option GpuVoxelMaterialBindGroups} :
    ∀ (es : List Nat) (acc evs : List RunEvent),
      es.foldlM (VoxelMeshComputeNode.runStep mats bgs) acc = some evs →
      ∀ x ∈ acc, x ∈ evs := by
  intro es
  induction es with
  | nil =>
    intro acc evs h x hx
    simp only [List.foldlM_nil] at h
    rw [← Option.some_inj.mp h]
    exact hx
  | cons a es ih =>
    intro acc evs h x hx
    obtain ⟨acc2, hstep, hrest⟩ := VoxelMeshComputeNode.foldlM_cons_some h
    refine ih acc2 evs hrest x ?_
    rcases VoxelMeshComputeNode.runStep_some hstep with h2 | h2 <;>
      (rw [h2]; exact List.mem_append_left _ hx)

theorem VoxelMeshComputeNode.foldlM_copy_bytes
    {mats : Nat → Option GpuVoxelMaterial}
    {bgs : Nat → Option GpuVoxelMaterialBindGroups} :
    ∀ (es : List Nat) (acc evs : List RunEvent),
      es.foldlM (VoxelMeshComputeNode.runStep mats bgs) acc = some evs →
      (∀ e2 n, RunEvent.copy e2 n ∈ acc → n = CHUNK_SZ * sizeOfVec3) →
      ∀ e2 n, RunEvent.copy e2 n ∈ evs → n = CHUNK_SZ * sizeOfVec3 := by
  intro es
  induction es with
  | nil =>
    intro acc evs h hacc
    simp only [List.foldlM_nil] at h
    rw [← Option.some_inj.mp h]
    exact hacc
  | cons a es ih =>
    intro acc evs h hacc
    obtain ⟨acc2, hstep, hrest⟩ := VoxelMeshComputeNode.foldlM_cons_some h
    refine ih acc2 evs hrest ?_
    intro e2 n hmem
    rcases VoxelMeshComputeNode.runStep_some hstep with h2 | h2 <;> rw [h2] at hmem
    · rcases List.mem_append.mp hmem with hl | hr
      · exact hacc e2 n hl
      · rcases List.mem_cons.mp hr with h1 | h1
        · exact RunEvent.noConfusion h1
        · rcases List.mem_cons.mp h1 with h3 | h3
          · exact (RunEvent.copy.inj h3).2
          · exact absurd h3 (List.not_mem_nil _)
    · rcases List.mem_append.mp hmem with hl | hr
      · exact hacc e2 n hl
      · rcases List.mem_cons.mp hr with h1 | h1
        · exact RunEvent.noConfusion h1
        · exact absurd h1 (List.not_mem_nil _)

theorem VoxelMeshComputeNode.runStep_some_strong
    {mats : Nat → Option GpuVoxelMaterial}
    {bgs : Nat → Option GpuVoxelMaterialBindGroups} {acc acc2 : List RunEvent}
    {a : Nat} (h : VoxelMeshComputeNode.runStep mats bgs acc a = some acc2) :
    ((mats a).isSome = true ∧ (bgs a).isSome = true
      ∧ acc2 = acc ++ [RunEvent.dispatch a 8 8 8,
                       RunEvent.copy a (CHUNK_SZ * sizeOfVec3)])
    ∨ acc2 = acc ++ [RunEvent.logMissing a] := by
  unfold VoxelMeshComputeNode.runStep at h
  split at h
  next g bg h1 h2 =>
    split at h
    · exact Or.inl ⟨by rw [h1]; rfl, by rw [h2]; rfl, (Option.some_inj.mp h).symm⟩
    · exact Option.noConfusion h
  next x y hcontra =>
    exact Or.inr (Option.some_inj.mp h).symm

theorem VoxelMeshComputeNode.runStep_isSome_of_wf
    {mats : Nat → Option GpuVoxelMaterial}
    {bgs : Nat → Option GpuVoxelMaterialBindGroups}
    (hwf : ∀ e2 g, mats e2 = some g → g.vertices_buffer.buffer.isSome = true)
    (acc : List RunEvent) (a : Nat) :
    ∃ acc2, VoxelMeshComputeNode.runStep mats bgs acc a = some acc2
      ∧ (acc2 = acc ++ [RunEvent.dispatch a 8 8 8,
                        RunEvent.copy a (CHUNK_SZ * sizeOfVec3)]
         ∨ acc2 = acc ++ [RunEvent.logMissing a]) := by
  cases hm : mats a with
  | none =>
    refine ⟨acc ++ [RunEvent.logMissing a], ?_, Or.inr rfl⟩
    cases hb : bgs a <;> simp [VoxelMeshComputeNode.runStep, hm, hb]
  | some g =>
    cases hb : bgs a with
    | none =>
      refine ⟨acc ++ [RunEvent.logMissing a], ?_, Or.inr rfl⟩
      simp [VoxelMeshComputeNode.runStep, hm, hb]
    | some bg =>
      obtain ⟨b, hbuf⟩ := Option.isSome_iff_exists.mp (hwf a g hm)
      refine ⟨acc ++ [RunEvent.dispatch a 8 8 8,
                      RunEvent.copy a (CHUNK_SZ * sizeOfVec3)], ?_, Or.inl rfl⟩
      simp [VoxelMeshComputeNode.runStep, hm, hb, hbuf]

theorem VoxelMeshComputeNode.foldlM_run_log
    {mats : Nat → Option GpuVoxelMaterial}
    {bgs : Nat → Option GpuVoxelMaterialBindGroups} {e : Nat}
    (hwf : ∀ e2 g, mats e2 = some g → g.vertices_buffer.buffer.isSome = true) :
    ∀ (es : List Nat) (acc : List RunEvent),
      ∃ evs, es.foldlM (VoxelMeshComputeNode.runStep mats bgs) acc = some evs
        ∧ (∀ x ∈ acc, x ∈ evs)
        ∧ (e ∈ es → (mats e = none ∨ bgs e = none) →
            RunEvent.logMissing e ∈ evs) := by
  intro es
  induction es with
  | nil =>
    intro acc
    exact ⟨acc, by simp [List.foldlM_nil], fun x hx => hx,
           fun h => absurd h (List.not_mem_nil e)⟩
  | cons a es ih =>
    intro acc
    obtain ⟨acc2, hstep, hcases⟩ :=
      VoxelMeshComputeNode.runStep_isSome_of_wf hwf acc a
    obtain ⟨evs, hfold, hsub, hlog⟩ := ih acc2
    refine ⟨evs, ?_, ?_, ?_⟩
    · rw [List.foldlM_cons, hstep]
      exact hfold
    · intro x hx
      refine hsub x ?_
      rcases hcases with h2 | h2 <;> (rw [h2]; exact List.mem_append_left _ hx)
    · intro he hmiss
      rcases List.mem_cons.mp he with he | he
      · subst he
        rcases VoxelMeshComputeNode.runStep_some_strong hstep with ⟨hms, hbs, _⟩ | hl
        · exfalso
          rcases hmiss with hm | hm
          · rw [hm] at hms
            simp at hms
          · rw [hm] at hbs
            simp at hbs
        · refine hsub _ ?_
          rw [hl]
          exact List.mem_append_right _ (by simp)
      · exact hlog he hmiss

theorem VoxelMeshComputeNode.foldlM_dispatch_present
    {mats : Nat → Option GpuVoxelMaterial}
    {bgs : Nat → Option GpuVoxelMaterialBindGroups} :
    ∀ (es : List Nat) (acc evs : List RunEvent),
      es.foldlM (VoxelMeshComputeNode.runStep mats bgs) acc = some evs →
      ∀ a2 x y z, RunEvent.dispatch a2 x y z ∈ evs →
        RunEvent.dispatch a2 x y z ∈ acc
          ∨ ((mats a2).isSome = true ∧ (bgs a2).isSome = true) := by
  intro es
  induction es with
  | nil =>
    intro acc evs h a2 x y z hmem
    simp only [List.foldlM_nil] at h
    rw [← Option.some_inj.mp h] at hmem
    exact Or.inl hmem
  | cons a es ih =>
    intro acc evs h a2 x y z hmem
    obtain ⟨acc2, hstep, hrest⟩ := VoxelMeshComputeNode.foldlM_cons_some h
    rcases ih acc2 evs hrest a2 x y z hmem with hacc2 | hpres
    · rcases VoxelMeshComputeNode.runStep_some_strong hstep with ⟨hms, hbs, h2⟩ | h2 <;>
        rw [h2] at hacc2
      · rcases List.mem_append.mp hacc2 with hl | hr
        · exact Or.inl hl
        · rcases List.mem_cons.mp hr with h3 | h3
          · obtain ⟨h4, -, -, -⟩ := RunEvent.dispatch.inj h3
            subst h4
            exact Or.inr ⟨hms, hbs⟩
          · rcases List.mem_cons.mp h3 with h5 | h5
            · exact RunEvent.noConfusion h5
            · exact absurd h5 (List.not_mem_nil _)
      · rcases List.mem_append.mp hacc2 with hl | hr
        · exact Or.inl hl
        · rcases List.mem_cons.mp hr with h3 | h3
          · exact RunEvent.noConfusion h3
          · exact absurd h3 (List.not_mem_nil _)
    · exact Or.inr hpres

theorem VoxelMeshComputeNode.foldlM_copy_present
    {mats : Nat → Option GpuVoxelMaterial}
    {bgs : Nat → Option GpuVoxelMaterialBindGroups} :
    ∀ (es : List Nat) (acc evs : List RunEvent),
      es.foldlM (VoxelMeshComputeNode.runStep mats bgs) acc = some evs →
      ∀ a2 nb, RunEvent.copy a2 nb ∈ evs →
        RunEvent.copy a2 nb ∈ acc
          ∨ ((mats a2).isSome = true ∧ (bgs a2).isSome = true) := by
  intro es
  induction es with
  | nil =>
    intro acc evs h a2 nb hmem
    simp only [List.foldlM_nil] at h
    rw [← Option.some_inj.mp h] at hmem
    exact Or.inl hmem
  | cons a es ih =>
    intro acc evs h a2 nb hmem
    obtain ⟨acc2, hstep, hrest⟩ := VoxelMeshComputeNode.foldlM_cons_some h
    rcases ih acc2 evs hrest a2 nb hmem with hacc2 | hpres
    · rcases VoxelMeshComputeNode.runStep_some_strong hstep with ⟨hms, hbs, h2⟩ | h2 <;>
        rw [h2] at hacc2
      · rcases List.mem_append.mp hacc2 with hl | hr
        · exact Or.inl hl
        · rcases List.mem_cons.mp hr with h3 | h3
          · exact RunEvent.noConfusion h3
          · rcases List.mem_cons.mp h3 with h5 | h5
            · obtain ⟨h4, -⟩ := RunEvent.copy.inj h5
              subst h4
              exact Or.inr ⟨hms, hbs⟩
            · exact absurd h5 (List.not_mem_nil _)
      · rcases List.mem_append.mp hacc2 with hl | hr
        · exact Or.inl hl
        · rcases List.mem_cons.mp hr with h3 | h3
          · exact RunEvent.noConfusion h3
          · exact absurd h3 (List.not_mem_nil _)
    · exact Or.inr hpres

theorem VoxelMeshComputeNode.foldlM_copy_mem
    {mats : Nat → Option GpuVoxelMaterial}
    {bgs : Nat → Option GpuVoxelMaterialBindGroups} {e : Nat}
    {g : GpuVoxelMaterial} {bg : GpuVoxelMaterialBindGroups}
    (hm : mats e = some g) (hb : bgs e = some bg) :
    ∀ (es : List Nat) (acc evs : List RunEvent),
      es.foldlM (VoxelMeshComputeNode.runStep mats bgs) acc = some evs →
      e ∈ es → RunEvent.copy e (CHUNK_SZ * sizeOfVec3) ∈ evs := by
  intro es
  induction es with
  | nil => intro acc evs h he; exact absurd he (List.not_mem_nil e)
  | cons a es ih =>
    intro acc evs h he
    obtain ⟨acc2, hstep, hrest⟩ := VoxelMeshComputeNode.foldlM_cons_some h
    rcases List.mem_cons.mp he with he | he
    · subst he
      have h2 := VoxelMeshComputeNode.runStep_some_of_present hm hb hstep
      refine VoxelMeshComputeNode.foldlM_mono es acc2 evs hrest _ ?_
      rw [h2]
      exact List.mem_append_right _ (by simp)
    · exact ih acc2 evs hrest he

/-! ## C8 — skip-on-missing-state -/

/-- C8: in a round whose compiled pipeline is available, every entity that has
gpu resources but no bind groups, or bind groups but no resources, is skipped:
`run` returns success, the entity's condition is logged, and no dispatch or
copy is issued for it.  (The well-formedness hypothesis `hwf` — every stored
gpu material has an uploaded vertices buffer — holds of everything
`GpuVoxelMaterial::new` produces and keeps the *other* entities from
panicking in the copy step.) -/
theorem run_skips_missing_state (entities : List Nat)
    (mats : Nat → Option GpuVoxelMaterial)
    (bgs : Nat → Option GpuVoxelMaterialBindGroups) (e : Nat)
    (hwf : ∀ e2 g, mats e2 = some g → g.vertices_buffer.buffer.isSome = true)
    (he : e ∈ entities) (hmiss : mats e = none ∨ bgs e = none) :
    ∃ evs, VoxelMeshComputeNode.run (some ()) entities mats bgs = some evs
      ∧ RunEvent.logMissing e ∈ evs
      ∧ (∀ x y z, RunEvent.dispatch e x y z ∉ evs)
      ∧ (∀ nb, RunEvent.copy e nb ∉ evs) := by
  obtain ⟨evs, hfold, hsub, hlog⟩ :=
    VoxelMeshComputeNode.foldlM_run_log (e := e) hwf entities []
  refine ⟨evs, hfold, hlog he hmiss, ?_, ?_⟩
  · intro x y z hmem
    rcases VoxelMeshComputeNode.foldlM_dispatch_present entities [] evs hfold
        e x y z hmem with hl | ⟨hms, hbs⟩
    · exact absurd hl (List.not_mem_nil _)
    · rcases hmiss with hm | hm
      · rw [hm] at hms; simp at hms
      · rw [hm] at hbs; simp at hbs
  · intro nb hmem
    rcases VoxelMeshComputeNode.foldlM_copy_present entities [] evs hfold
        e nb hmem with hl | ⟨hms, hbs⟩
    · exact absurd hl (List.not_mem_nil _)
    · rcases hmiss with hm | hm
      · rw [hm] at hms; simp at hms
      · rw [hm] at hbs; simp at hbs

/-- An all-empty resources map (no entity has gpu resources). -/
def matsNone : Nat → Option GpuVoxelMaterial := fun _ => none

/-- C8 (witness): entity 0 has bind groups (`bgsC2`) but no resources: the
round succeeds, logs entity 0, and issues it no dispatch and no copy. -/
theorem run_skips_missing_state_witness :
    (0 ∈ ([0] : List Nat)) ∧ (matsNone 0 = none ∨ bgsC2 0 = none)
      ∧ ∃ evs, VoxelMeshComputeNode.run (some ()) [0] matsNone bgsC2 = some evs
          ∧ RunEvent.logMissing 0 ∈ evs
          ∧ (∀ x y z, RunEvent.dispatch 0 x y z ∉ evs)
          ∧ (∀ nb, RunEvent.copy 0 nb ∉ evs) :=
  ⟨by simp, Or.inl rfl,
    run_skips_missing_state [0] matsNone bgsC2 0
      (fun e2 g h => Option.noConfusion h) (by simp) (Or.inl rfl)⟩

/-! ## C2 — the byte count of the staging copy -/

set_option maxRecDepth 400000 in
/-- C2 (counterexample): for a volume with `chunk_size = 8` (`mC2`), present
and bound as entity 0, `run` enqueues a copy of
`CHUNK_SZ * size_of::<Vec3>() = 32 × 12 = 384` bytes — not
`chunk_size × vertex_record_size = 8 × 16 = 128` bytes as the claim
requires. -/
theorem compute_node_copy_size_claim_counterexample :
    VoxelMeshComputeNode.run (some ()) [0] matsC2 bgsC2
        = some [RunEvent.dispatch 0 8 8 8, RunEvent.copy 0 384]
      ∧ (384 : Nat) ≠ mC2.chunk_size * VertexBuffer.min_size := by
  exact ⟨by decide, by decide⟩

/-- C2 (amended): for every volume processed by the compute node's `run` with
both its resources and bind group present, the node enqueues into that
volume's staging buffer a copy of exactly `CHUNK_SZ × size_of::<Vec3>()`
= 32 × 12 = 384 bytes — a global constant independent of the volume's
`chunk_size` — and every copy the round enqueues has that same byte count. -/
theorem compute_node_copy_size_constant (entities : List Nat)
    (mats : Nat → Option GpuVoxelMaterial)
    (bgs : Nat → Option GpuVoxelMaterialBindGroups) (e : Nat)
    (g : GpuVoxelMaterial) (bg : GpuVoxelMaterialBindGroups) (evs : List RunEvent)
    (hrun : VoxelMeshComputeNode.run (some ()) entities mats bgs = some evs)
    (he : e ∈ entities) (hm : mats e = some g) (hb : bgs e = some bg) :
    RunEvent.copy e (CHUNK_SZ * sizeOfVec3) ∈ evs
      ∧ ∀ e2 nb, RunEvent.copy e2 nb ∈ evs → nb = CHUNK_SZ * sizeOfVec3 := by
  have hfold : entities.foldlM (VoxelMeshComputeNode.runStep mats bgs) []
      = some evs := hrun
  constructor
  · exact VoxelMeshComputeNode.foldlM_copy_mem hm hb entities [] evs hfold he
  · exact VoxelMeshComputeNode.foldlM_copy_bytes entities [] evs hfold
      (fun e2 nb h2 => absurd h2 (List.not_mem_nil _))

set_option maxRecDepth 400000 in
/-- C2 (witness): the amended statement at the concrete round of the
counterexample — the copy for entity 0 carries 384 bytes. -/
theorem compute_node_copy_size_constant_witness :
    RunEvent.copy 0 (CHUNK_SZ * sizeOfVec3)
      ∈ [RunEvent.dispatch 0 8 8 8, RunEvent.copy 0 384] :=
  (compute_node_copy_size_constant [0] matsC2 bgsC2 0 gC2
    ((GpuVoxelMaterialBindGroups.new gC2).getD { groups := [] })
    [RunEvent.dispatch 0 8 8 8, RunEvent.copy 0 384]
    (by decide) (by simp) (by decide) (by decide)).1

/-! ## C3 — `initialise` and `prepare` build equivalent bind groups -/

theorem VoxelMaterialComponents.get_insert {α : Type} (m : VoxelMaterialComponents α)
    (k : Nat) (v : α) (k2 : Nat) :
    (m.insert k v).get k2 = if k2 = k then some v else m.get k2 := rfl

theorem GpuVoxelMaterialBindGroups.bindStep_fold_get
    {mats : VoxelMaterialComponents GpuVoxelMaterial} {e : Nat}
    {g : GpuVoxelMaterial} {bg : GpuVoxelMaterialBindGroups}
    (hm : mats.get e = some g) (hbg : GpuVoxelMaterialBindGroups.new g = some bg) :
    ∀ (es : List Nat) (acc : VoxelMaterialComponents GpuVoxelMaterialBindGroups),
      (∀ e2 ∈ es, ∀ g2, mats.get e2 = some g2 →
          (GpuVoxelMaterialBindGroups.new g2).isSome = true) →
      ∃ res, es.foldlM (GpuVoxelMaterialBindGroups.bindStep mats) acc = some res
        ∧ (e ∈ es → res.get e = some bg)
        ∧ (e ∉ es → res.get e = acc.get e) := by
  intro es
  induction es with
  | nil =>
    intro acc _
    exact ⟨acc, by simp [List.foldlM_nil],
           fun h => absurd h (List.not_mem_nil e), fun _ => rfl⟩
  | cons a es ih =>
    intro acc hwf
    have hwfTail : ∀ e2 ∈ es, ∀ g2, mats.get e2 = some g2 →
        (GpuVoxelMaterialBindGroups.new g2).isSome = true :=
      fun e2 he2 => hwf e2 (List.mem_cons_of_mem a he2)
    cases hma : mats.get a with
    | none =>
      obtain ⟨res, hfold, h1, h2⟩ := ih acc hwfTail
      refine ⟨res, ?_, ?_, ?_⟩
      · rw [List.foldlM_cons]
        have hstep : GpuVoxelMaterialBindGroups.bindStep mats acc a = some acc := by
          unfold GpuVoxelMaterialBindGroups.bindStep
          rw [hma]
        rw [hstep]
        exact hfold
      · intro he
        rcases List.mem_cons.mp he with he | he
        · subst he
          rw [hm] at hma
          exact Option.noConfusion hma
        · exact h1 he
      · intro he
        exact h2 (fun h3 => he (List.mem_cons_of_mem a h3))
    | some g2 =>
      obtain ⟨bg2, hbg2⟩ := Option.isSome_iff_exists.mp
        (hwf a (List.mem_cons_self a es) g2 hma)
      obtain ⟨res, hfold, h1, h2⟩ := ih (acc.insert a bg2) hwfTail
      refine ⟨res, ?_, ?_, ?_⟩
      · rw [List.foldlM_cons]
        have hstep : GpuVoxelMaterialBindGroups.bindStep mats acc a
            = some (acc.insert a bg2) := by
          simp only [GpuVoxelMaterialBindGroups.bindStep, hma, hbg2, Option.map_some']
        rw [hstep]
        exact hfold
      · intro he
        by_cases hees : e ∈ es
        · exact h1 hees
        · rcases List.mem_cons.mp he with he | he
          · subst he
            rw [hm] at hma
            cases Option.some_inj.mp hma
            rw [hbg] at hbg2
            cases Option.some_inj.mp hbg2
            rw [h2 hees, VoxelMaterialComponents.get_insert, if_pos rfl]
          · exact absurd he hees
      · intro he
        have hne : e ≠ a := fun h3 => he (h3 ▸ List.mem_cons_self e es)
        rw [h2 (fun h3 => he (List.mem_cons_of_mem a h3)),
            VoxelMaterialComponents.get_insert, if_neg hne]

/-- C3: for every volume whose gpu resources exist (and bind successfully),
the bind-group building done at first sight (`initialise`) and the bind-group
building done every frame (`prepare`) store the same `BindingSet` for that
volume — the one `GpuVoxelMaterialBindGroups::new` builds from the *current*
resources map; in particular `prepare` (re)builds an entry for every
currently-known volume with resources.  The `hwf` hypotheses say every
queried entity with resources binds without panicking. -/
theorem initialise_prepare_equivalent_bind_groups
    (added known : List Nat) (mats : VoxelMaterialComponents GpuVoxelMaterial)
    (bgs1 bgs2 : VoxelMaterialComponents GpuVoxelMaterialBindGroups)
    (e : Nat) (g : GpuVoxelMaterial) (bg : GpuVoxelMaterialBindGroups)
    (hwfA : ∀ e2 ∈ added, ∀ g2, mats.get e2 = some g2 →
        (GpuVoxelMaterialBindGroups.new g2).isSome = true)
    (hwfK : ∀ e2 ∈ known, ∀ g2, mats.get e2 = some g2 →
        (GpuVoxelMaterialBindGroups.new g2).isSome = true)
    (heA : e ∈ added) (heK : e ∈ known)
    (hm : mats.get e = some g)
    (hbg : GpuVoxelMaterialBindGroups.new g = some bg) :
    ∃ resI resP,
      GpuVoxelMaterialBindGroups.initialise added mats bgs1 = some resI
        ∧ GpuVoxelMaterialBindGroups.prepare known mats bgs2 = some resP
        ∧ resI.get e = some bg ∧ resP.get e = some bg := by
  obtain ⟨resI, hfoldI, h1I, _⟩ :=
    GpuVoxelMaterialBindGroups.bindStep_fold_get hm hbg added bgs1 hwfA
  obtain ⟨resP, hfoldP, h1P, _⟩ :=
    GpuVoxelMaterialBindGroups.bindStep_fold_get hm hbg known bgs2 hwfK
  exact ⟨resI, resP, hfoldI, hfoldP, h1I heA, h1P heK⟩

/-- The bind groups `GpuVoxelMaterialBindGroups::new` builds for `gC2`. -/
def bgC2 : GpuVoxelMaterialBindGroups :=
  (GpuVoxelMaterialBindGroups.new gC2).getD { groups := [] }

set_option maxRecDepth 400000 in
/-- C3 (witness): at the concrete state with entity 0 carrying `gC2`, both
`initialise` and `prepare` store `bgC2` for entity 0. -/
theorem initialise_prepare_equivalent_bind_groups_witness :
    VoxelMaterialComponents.get matsC2 0 = some gC2
      ∧ GpuVoxelMaterialBindGroups.new gC2 = some bgC2
      ∧ ∃ resI resP,
          GpuVoxelMaterialBindGroups.initialise [0] matsC2
              VoxelMaterialComponents.empty = some resI
            ∧ GpuVoxelMaterialBindGroups.prepare [0] matsC2
                VoxelMaterialComponents.empty = some resP
            ∧ VoxelMaterialComponents.get resI 0 = some bgC2
            ∧ VoxelMaterialComponents.get resP 0 = some bgC2 := by
  have hwf : ∀ e2 ∈ ([0] : List Nat), ∀ g2,
      VoxelMaterialComponents.get matsC2 e2 = some g2 →
      (GpuVoxelMaterialBindGroups.new g2).isSome = true := by
    intro e2 he2 g2 hg2
    simp only [List.mem_singleton] at he2
    subst he2
    have h0 : VoxelMaterialComponents.get matsC2 0 = some gC2 := rfl
    rw [h0] at hg2
    cases Option.some_inj.mp hg2
    decide
  exact ⟨rfl, by decide,
    initialise_prepare_equivalent_bind_groups [0] [0] matsC2
      VoxelMaterialComponents.empty VoxelMaterialComponents.empty 0 gC2 bgC2
      hwf hwf (by simp) (by simp) rfl (by decide)⟩

/-! ## C7 — readback delivery -/

/-- C7: after one full round for a single volume — the producer
`map_and_read_buffer` mapping the staging buffer successfully (`hmap`) and
reading its contents as whole `u32` words (`hwords`) — exactly one
`ReadbackMessage` is sent; the consumer's non-blocking `receive` observes
exactly that one message and leaves the queue empty, a repeated poll with no
new round returns `none`, and a poll always consumes at most one message
(`(receive q).2 = q.tail`); `receive` is a total function, so it never
blocks. -/
theorem readback_single_round_delivery (mapOk : Buffer → Bool)
    (view : Buffer → List Nat) (e : Nat) (g : GpuVoxelMaterial) (ws : List Nat)
    (hmap : mapOk g.vertices_staging_buffer = true)
    (hwords : bytesToWords (view g.vertices_staging_buffer) = some ws) :
    RenderWorldSender.map_and_read_buffer mapOk view [(e, g)] [] = some [ws]
      ∧ MainWorldReceiver.receive [ws] = (some ws, [])
      ∧ MainWorldReceiver.receive [] = (none, [])
      ∧ ∀ q, (MainWorldReceiver.receive q).2 = q.tail := by
  refine ⟨?_, rfl, rfl, ?_⟩
  · simp [RenderWorldSender.map_and_read_buffer, hmap, hwords]
  · intro q
    cases q <;> rfl

/-- The mapping always succeeds. -/
def mapOkW : Buffer → Bool := fun _ => true

/-- A device view producing four zero bytes for every staging buffer. -/
def viewW : Buffer → List Nat := fun _ => [0, 0, 0, 0]

/-- C7 (witness): the single-volume round at entity 0 with resources `gW`:
one message `[0]` is sent, polled once, and the queue is then empty. -/
theorem readback_single_round_delivery_witness :
    mapOkW gW.vertices_staging_buffer = true
      ∧ bytesToWords (viewW gW.vertices_staging_buffer) = some [0]
      ∧ RenderWorldSender.map_and_read_buffer mapOkW viewW [(0, gW)] [] = some [[0]]
      ∧ MainWorldReceiver.receive [[0]] = (some [0], [])
      ∧ MainWorldReceiver.receive [] = (none, [])
      ∧ ∀ q, (MainWorldReceiver.receive q).2 = q.tail := by
  have h := readback_single_round_delivery mapOkW viewW 0 gW [0] rfl rfl
  exact ⟨rfl, rfl, h.1, h.2.1, h.2.2.1, h.2.2.2⟩
